import Mathlib

/-!
helix-go: the `/authorize` endpoint.

A shallow embedding of `src/auth/app/authorize.go`: request validation
(`validateOAuthParams`), form processing (`processForm`, `registerUser`,
`authenticateUser`), code issuance (`generateAuthorizationCode`) and the
handler `Authorize`.

Go errors are embedded by their message (`err.Error()`), a nil pointer by
`none`.  The collaborators whose code is not among these sources (the
database gateway, bcrypt, uniuri, the JWT signer, the clock) are fields of
the record `app`, so every statement below holds for all of their behaviours.
-/

namespace Helix

/-- An instant of the UTC clock, in nanoseconds. -/
abbrev Time := Nat

/-- The Go constant `time.Second`, in nanoseconds. -/
def Second : Nat := 1000000000

/-- The constant `uniuri.UUIDLen`. -/
def UUIDLen : Nat := 20

/-- The entity `entity.User`, with the fields set by `registerUser`. -/
structure User where
  ID : String
  TenantID : String
  Email : Option String
  EmailVerified : Option Bool
  PasswordHash : Option String
  CreatedAt : Time
  UpdatedAt : Time
  deriving DecidableEq, Repr

/-- The entity `entity.Client`, with the fields read by `validateOAuthParams`. -/
structure Client where
  ID : String
  AuthorizedDomains : List String
  deriving DecidableEq, Repr

/-- Modelled from the spec: `oauth.Params` is declared outside the sources; the
authorization request carries the client identifier, the optional redirect URI,
the optional state and an "is sign-up" flag derived from the request. -/
structure Params where
  ClientID : String
  RedirectURI : Option String
  State : Option String
  SignUp : Bool
  deriving DecidableEq, Repr

/-- Modelled from the spec: `Params.IsSignUp` is declared outside the sources; it
reads the "is sign-up" flag of the request. -/
def Params.IsSignUp (params : Params) : Bool := params.SignUp

/-- Modelled from the spec: `mapper.String` is declared outside the sources; the
redirect is built from the redirect URI itself, so a present string is rendered
as is (a nil pointer as the empty string, the Go zero value). -/
def mapper_String (s : Option String) : String :=
  match s with
  | some v => v
  | none => ""

/-- The struct `formInput`. -/
structure formInput where
  Email : String
  Password : Option String
  ConfirmPassword : Option String
  deriving DecidableEq, Repr

/-- The claims map built by `generateAuthorizationCode`. -/
structure Claims where
  jti : String
  client_id : String
  redirect_uri : Option String
  user_id : String
  deriving DecidableEq, Repr

/-- What has been done to a transaction handle so far. -/
inductive TxnStatus where
  | opened
  | committed
  | rolledBack
  deriving DecidableEq, Repr

/-- A transaction: the rows inserted through it and its status. -/
structure Txn where
  pending : List User
  status : TxnStatus
  deriving DecidableEq, Repr

/-- The mutable world of one request: the persisted tables, the transaction
begun by the request (if any) and the number of clock readings taken. -/
structure World where
  users : List User
  clients : List Client
  txn : Option Txn
  tick : Nat
  deriving DecidableEq, Repr

/-- The receiver `app` together with the collaborators it calls.  A field
`...Err` is the error (if any) with which the corresponding database call
fails; `now k` is the `k`-th reading of `time.Now().UTC()`. -/
structure app where
  TenantID : String
  usersQueryErr : Option String
  clientsQueryErr : Option String
  beginErr : Option String
  insertErr : Option String
  commitErr : Option String
  HashPassword : Option String → Except String (Option String)
  CompareHashAndPassword : String → String → Bool
  NewLen : Nat → String
  now : Nat → Time
  JWT : Claims → Time → Except String String

/-- The three outcomes of `Database.QueryItem`: a row, `sql.ErrNoRows`, or
another error. -/
inductive QueryResult (α : Type) where
  | found (row : α)
  | noRows
  | failed (e : String)
  deriving Repr

/-- The message of `sql.ErrNoRows`. -/
def ErrNoRows : String := "sql: no rows in result set"

/-- The query `SELECT * FROM users WHERE email = $1` of `processForm`: the first
persisted row whose email is the argument. -/
def queryUserByEmail (a : app) (w : World) (email : String) : QueryResult User :=
  match a.usersQueryErr with
  | some e => .failed e
  | none =>
    match w.users.find? (fun u => u.Email == some email) with
    | some u => .found u
    | none => .noRows

/-- The query `SELECT * FROM clients WHERE id = $1` of `getClient`. -/
def queryClientByID (a : app) (w : World) (clientID : String) : QueryResult Client :=
  match a.clientsQueryErr with
  | some e => .failed e
  | none =>
    match w.clients.find? (fun c => c.ID == clientID) with
    | some c => .found c
    | none => .noRows

/-- The function `getClient`: the client, or the error of the query. -/
def getClient (a : app) (w : World) (clientID : String) : Except String Client :=
  match queryClientByID a w clientID with
  | .found c => .ok c
  | .noRows => .error ErrNoRows
  | .failed e => .error e

/-- The loop of `validateOAuthParams` over `client.AuthorizedDomains`. -/
def isRedirectURIAuthorized (redirectURI : String) (domains : List String) : Bool :=
  domains.foldl (fun flag uri => if redirectURI = uri then true else flag) false

/-- The function `validateOAuthParams`; `none` is the nil error. -/
def validateOAuthParams (a : app) (w : World) (params : Params) : Option String :=
  match getClient a w params.ClientID with
  | .error _ => some "'client_id' is invalid"
  | .ok client =>
    match params.RedirectURI with
    | none => some "'redirect_uri' is invalid"
    | some redirectURI =>
      if !isRedirectURIAuthorized redirectURI client.AuthorizedDomains then
        some "'redirect_uri' is invalid"
      else
        none

/-- The call `Database.BeginTxn`: a fresh open transaction, or an error. -/
def BeginTxn (a : app) (w : World) : Except String World :=
  match a.beginErr with
  | some e => .error e
  | none => .ok { w with txn := some { pending := [], status := .opened } }

/-- The call `txn.Insert`: the row joins the rows pending in the transaction. -/
def Txn_Insert (a : app) (w : World) (user : User) : Option String × World :=
  match a.insertErr with
  | some e => (some e, w)
  | none =>
    match w.txn with
    | some t => (none, { w with txn := some { t with pending := t.pending ++ [user] } })
    | none => (none, w)

/-- The call `txn.Commit`: on success the pending rows are persisted and the
transaction is committed; on failure nothing is persisted. -/
def Txn_Commit (a : app) (w : World) : Option String × World :=
  match a.commitErr with
  | some e => (some e, w)
  | none =>
    match w.txn with
    | some t => (none, { w with users := w.users ++ t.pending,
                                txn := some { t with status := .committed } })
    | none => (none, w)

/-- The call `txn.Rollback` of the gateway: the pending rows are dropped.  No
function of `authorize.go` calls it. -/
def Txn_Rollback (w : World) : World :=
  match w.txn with
  | some _ => { w with txn := some { pending := [], status := .rolledBack } }
  | none => w

/-- The function `registerUser`. -/
def registerUser (a : app) (w : World) (_params : Params) (form : formInput) :
    Except String User × World :=
  match a.HashPassword form.Password with
  | .error e => (.error e, w)
  | .ok passwordHash =>
    let user : User :=
      { ID := a.NewLen 40
        TenantID := a.TenantID
        Email := some form.Email
        EmailVerified := some false
        PasswordHash := passwordHash
        CreatedAt := a.now w.tick
        UpdatedAt := a.now (w.tick + 1) }
    let w1 : World := { w with tick := w.tick + 2 }
    match Txn_Insert a w1 user with
    | (some e, w2) => (.error e, w2)
    | (none, w2) => (.ok user, w2)

/-- The function `authenticateUser`; `none` is the nil error. -/
def authenticateUser (a : app) (user : User) (form : formInput) : Option String :=
  match user.PasswordHash with
  | some passwordHash =>
    match form.Password with
    | some password =>
      if a.CompareHashAndPassword passwordHash password then none
      else some "Incorrect email or password"
    | none => some "Password required"
  | none => none

/-- The function `generateAuthorizationCode`. -/
def generateAuthorizationCode (a : app) (w : World) (params : Params) (user : User) :
    Except String String × World :=
  let claims : Claims :=
    { jti := a.NewLen UUIDLen
      client_id := params.ClientID
      redirect_uri := params.RedirectURI
      user_id := user.ID }
  let exp := a.now w.tick + 30 * Second
  (a.JWT claims exp, { w with tick := w.tick + 1 })

/-- What `processForm` returns, and the world it leaves. -/
structure Outcome where
  dest : String
  err : Option String
  world : World
  deriving DecidableEq, Repr

/-- The redirect of `processForm` (source lines 119 to 124). -/
def redirectDest (params : Params) (code : String) : String :=
  let dest := "https://" ++ mapper_String params.RedirectURI ++ "?code=" ++ code
  match params.State with
  | some state => dest ++ "&state=" ++ state
  | none => dest

/-- The end of `processForm` once the user is resolved (source lines 108 to
124): commit, issue the code, build the redirect. -/
def commitAndRedirect (a : app) (w : World) (params : Params) (user : User) : Outcome :=
  match Txn_Commit a w with
  | (some e, w1) => { dest := "", err := some e, world := w1 }
  | (none, w1) =>
    match generateAuthorizationCode a w1 params user with
    | (.error e, w2) => { dest := "", err := some e, world := w2 }
    | (.ok code, w2) => { dest := redirectDest params code, err := none, world := w2 }

/-- The function `processForm`. -/
def processForm (a : app) (w : World) (params : Params) (form : formInput) : Outcome :=
  match queryUserByEmail a w form.Email with
  | .failed e => { dest := "", err := some e, world := w }
  | .noRows =>
    match BeginTxn a w with
    | .error e => { dest := "", err := some e, world := w }
    | .ok w1 =>
      if params.IsSignUp then
        match registerUser a w1 params form with
        | (.error e, w2) => { dest := "", err := some e, world := w2 }
        | (.ok user, w2) => commitAndRedirect a w2 params user
      else
        { dest := "", err := some "Incorrect email or password", world := w1 }
  | .found user =>
    match BeginTxn a w with
    | .error e => { dest := "", err := some e, world := w }
    | .ok w1 =>
      match authenticateUser a user form with
      | some e => { dest := "", err := some e, world := w1 }
      | none => commitAndRedirect a w1 params user

/-- The template parameters handed to `c.HTML`. -/
structure TmplParams where
  action : Option String
  email : Option String
  password : Option String
  error : Option String
  title : Option String
  deriving DecidableEq, Repr

/-- What the handler answers: `HTML code name obj` is a page rendered by
`c.HTML` with the status `code` of the answer, `Redirect code location` is the
call `c.Redirect` with the location as the handler passes it (before the
escaping done by `http.Redirect`). -/
inductive Response where
  | HTML (code : Nat) (name : String) (obj : TmplParams)
  | Redirect (code : Nat) (location : String)
  deriving DecidableEq, Repr

/-- The part of `gin.Context` the handler reads: the method, the URL, and the
results of binding the query string and the form. -/
structure Request where
  Method : String
  RawPath : String
  RawQuery : String
  query : Except String Params
  form : Except String formInput

/-- The page `error.html` with `gin.H{"error": ...}`. -/
def errorPage (e : String) : Response :=
  .HTML 400 "error.html"
    { action := none, email := none, password := none, error := some e, title := none }

/-- The function `render`. -/
def render (c : Request) (params : Params) (form : Option formInput) (err : Option String) :
    Response :=
  let tmplParams : TmplParams :=
    { action := some (c.RawPath ++ "?" ++ c.RawQuery)
      email := form.map (fun f => f.Email)
      password := form.bind (fun f => f.Password)
      error := err
      title := none }
  if params.IsSignUp then
    .HTML 200 "signUp.html" { tmplParams with title := some "Sign up" }
  else
    .HTML 200 "signIn.html" { tmplParams with title := some "Sign in" }

/-- The answer once `c.Bind` has failed: `Bind` aborts the request with status
400 before it returns its error, and the status of a later `c.HTML` is not
applied. -/
def afterAbort (r : Response) : Response :=
  match r with
  | .HTML _ name obj => .HTML 400 name obj
  | .Redirect code location => .Redirect code location

/-- The handler `Authorize`. -/
def Authorize (a : app) (w : World) (c : Request) : Response × World :=
  match c.query with
  | .error e => (errorPage e, w)
  | .ok params =>
    match validateOAuthParams a w params with
    | some e => (errorPage e, w)
    | none =>
      if c.Method = "GET" then (render c params none none, w)
      else if c.Method = "POST" then
        match c.form with
        | .error e => (afterAbort (render c params none (some e)), w)
        | .ok form =>
          let out := processForm a w params form
          match out.err with
          | some e => (render c params (some form) (some e), out.world)
          | none => (.Redirect 302 out.dest, out.world)
      else (render c params none none, w)

/-! ## Fixtures -/

/-- An application whose collaborators all succeed. -/
def demoApp : app :=
  { TenantID := "t1"
    usersQueryErr := none
    clientsQueryErr := none
    beginErr := none
    insertErr := none
    commitErr := none
    HashPassword := fun p => .ok (p.map (fun s => "h:" ++ s))
    CompareHashAndPassword := fun h p => h == "h:" ++ p
    NewLen := fun n => if n = 40 then "uid" else "jti"
    now := fun k => 1000 + k
    JWT := fun c _ => .ok ("tok." ++ c.user_id) }

/-- The application `demoApp` with a signer that fails. -/
def demoAppSignFails : app :=
  { demoApp with JWT := fun _ _ => .error "signing failed" }

/-- A client with one authorized redirect URI. -/
def demoClient : Client := { ID := "c1", AuthorizedDomains := ["app.example/cb"] }

/-- A user of tenant `t1` with a password hash. -/
def alice : User :=
  { ID := "u-alice", TenantID := "t1", Email := some "alice@example.com",
    EmailVerified := some true, PasswordHash := some "h:secret",
    CreatedAt := 1, UpdatedAt := 1 }

/-- A user of another tenant, without a password hash. -/
def mallory : User :=
  { ID := "u-mallory", TenantID := "t2", Email := some "bob@example.com",
    EmailVerified := some false, PasswordHash := none,
    CreatedAt := 2, UpdatedAt := 2 }

/-- A user of another tenant, with a password hash. -/
def trent : User :=
  { ID := "u-trent", TenantID := "t2", Email := some "bob@example.com",
    EmailVerified := some true, PasswordHash := some "h:other",
    CreatedAt := 3, UpdatedAt := 3 }

/-- A world with no user. -/
def emptyWorld : World := { users := [], clients := [demoClient], txn := none, tick := 0 }

/-- A world whose only user is `alice`. -/
def aliceWorld : World := { emptyWorld with users := [alice] }

/-- A world whose only user is `mallory`, of tenant `t2`. -/
def malloryWorld : World := { emptyWorld with users := [mallory] }

/-- A world whose only user is `trent`, of tenant `t2`. -/
def trentWorld : World := { emptyWorld with users := [trent] }

/-- A sign-in request. -/
def signInParams : Params :=
  { ClientID := "c1", RedirectURI := some "app.example/cb", State := none, SignUp := false }

/-- A sign-up request carrying a state. -/
def signUpParams : Params :=
  { ClientID := "c1", RedirectURI := some "app.example/cb", State := some "xyz", SignUp := true }

/-- A form submission: a POST whose query string and form bind. -/
def postRequest (params : Params) (form : formInput) : Request :=
  { Method := "POST", RawPath := "/authorize", RawQuery := "client_id=c1",
    query := .ok params, form := .ok form }

/-! ## Request validation -/

theorem foldl_authorized (r : String) (l : List String) (b : Bool) :
    l.foldl (fun flag uri => if r = uri then true else flag) b = true ↔ b = true ∨ r ∈ l := by
  induction l generalizing b with
  | nil => simp
  | cons x xs ih =>
    simp only [List.foldl_cons, ih, List.mem_cons]
    by_cases h : r = x
    · simp [h]
    · simp [h]

theorem isRedirectURIAuthorized_iff (r : String) (l : List String) :
    isRedirectURIAuthorized r l = true ↔ r ∈ l := by
  unfold isRedirectURIAuthorized
  rw [foldl_authorized]
  simp

/-- C1: when the client resolves to `C`, `validateOAuthParams` returns no error
iff the redirect URI is supplied and is an element of `C.AuthorizedDomains`,
and otherwise returns "'redirect_uri' is invalid"; when the client lookup fails
it returns "'client_id' is invalid" whatever the redirect URI is. -/
theorem validateOAuthParams_spec (a : app) (w : World) (params : Params) :
    (∀ C, getClient a w params.ClientID = .ok C →
      (validateOAuthParams a w params = none ↔
        ∃ R, params.RedirectURI = some R ∧ R ∈ C.AuthorizedDomains) ∧
      ((¬ ∃ R, params.RedirectURI = some R ∧ R ∈ C.AuthorizedDomains) →
        validateOAuthParams a w params = some "'redirect_uri' is invalid")) ∧
    (∀ e, getClient a w params.ClientID = .error e →
      validateOAuthParams a w params = some "'client_id' is invalid") := by
  refine ⟨fun C hC => ?_, fun e he => ?_⟩
  · cases hR : params.RedirectURI with
    | none => simp [validateOAuthParams, hC, hR]
    | some R =>
      by_cases hm : R ∈ C.AuthorizedDomains
      · simp [validateOAuthParams, hC, hR, isRedirectURIAuthorized_iff, hm]
      · simp [validateOAuthParams, hC, hR, isRedirectURIAuthorized_iff, hm]
  · simp [validateOAuthParams, he]

theorem validateOAuthParams_spec_witness :
    validateOAuthParams demoApp emptyWorld signInParams = none ∧
    validateOAuthParams demoApp emptyWorld
      { signInParams with RedirectURI := some "app.example" } =
        some "'redirect_uri' is invalid" ∧
    validateOAuthParams demoApp emptyWorld { signInParams with ClientID := "nope" } =
        some "'client_id' is invalid" :=
  ⟨((validateOAuthParams_spec demoApp emptyWorld signInParams).1 demoClient rfl).1.2
      ⟨"app.example/cb", rfl, by decide⟩,
   ((validateOAuthParams_spec demoApp emptyWorld
      { signInParams with RedirectURI := some "app.example" }).1 demoClient rfl).2
      (by decide),
   (validateOAuthParams_spec demoApp emptyWorld { signInParams with ClientID := "nope" }).2
      ErrNoRows rfl⟩

/-! ## Authentication -/

/-- C7: `authenticateUser` by cases.  With a password hash and a submitted
password it succeeds iff the password verifies against the hash and otherwise
fails with "Incorrect email or password"; with a password hash and no submitted
password it fails with "Password required"; without a password hash it
succeeds whatever the form holds. -/
theorem authenticateUser_cases (a : app) (user : User) (form : formInput) :
    (∀ h p, user.PasswordHash = some h → form.Password = some p →
      (authenticateUser a user form = none ↔ a.CompareHashAndPassword h p = true) ∧
      (a.CompareHashAndPassword h p = false →
        authenticateUser a user form = some "Incorrect email or password")) ∧
    (∀ h, user.PasswordHash = some h → form.Password = none →
      authenticateUser a user form = some "Password required") ∧
    (user.PasswordHash = none → authenticateUser a user form = none) := by
  refine ⟨fun h p hh hp => ?_, fun h hh hp => ?_, fun hh => ?_⟩
  · cases hv : a.CompareHashAndPassword h p <;> simp [authenticateUser, hh, hp, hv]
  · simp [authenticateUser, hh, hp]
  · simp [authenticateUser, hh]

theorem authenticateUser_cases_witness :
    authenticateUser demoApp alice
        { Email := "alice@example.com", Password := some "secret", ConfirmPassword := none } =
      none ∧
    authenticateUser demoApp alice
        { Email := "alice@example.com", Password := some "guess", ConfirmPassword := none } =
      some "Incorrect email or password" ∧
    authenticateUser demoApp alice
        { Email := "alice@example.com", Password := none, ConfirmPassword := none } =
      some "Password required" ∧
    authenticateUser demoApp mallory
        { Email := "bob@example.com", Password := none, ConfirmPassword := none } = none :=
  ⟨((authenticateUser_cases demoApp alice _).1 "h:secret" "secret" rfl rfl).1.2 (by decide),
   ((authenticateUser_cases demoApp alice _).1 "h:secret" "guess" rfl rfl).2 (by decide),
   (authenticateUser_cases demoApp alice _).2.1 "h:secret" rfl rfl,
   (authenticateUser_cases demoApp mallory _).2.2 rfl⟩

/-! ## Form processing -/

theorem find?_none_of_forall (l : List User) (E : String)
    (h : ∀ x ∈ l, x.Email ≠ some E) :
    l.find? (fun u => u.Email == some E) = none := by
  rw [List.find?_eq_none]
  intro x hx
  simpa using h x hx

theorem queryUserByEmail_noRows (a : app) (w : World) (E : String)
    (hq : a.usersQueryErr = none) (h : ∀ x ∈ w.users, x.Email ≠ some E) :
    queryUserByEmail a w E = .noRows := by
  simp [queryUserByEmail, hq, find?_none_of_forall w.users E h]

theorem queryUserByEmail_found (a : app) (w : World) (E : String) (u : User)
    (hq : a.usersQueryErr = none)
    (h : w.users.find? (fun x => x.Email == some E) = some u) :
    queryUserByEmail a w E = .found u := by
  simp [queryUserByEmail, hq, h]

/-- C6: on a sign-in request, with the lookup and `BeginTxn` succeeding, an
unknown email and a known email whose password hash the submitted password does
not verify against give the same result: an empty destination, the error
"Incorrect email or password", and no user row inserted (neither persisted nor
pending in the transaction). -/
theorem signIn_failures_indistinguishable (a : app) (w1 w2 : World) (params : Params)
    (form : formInput) (u : User) (h p : String)
    (hq : a.usersQueryErr = none) (hb : a.beginErr = none)
    (hsi : params.IsSignUp = false)
    (h1 : ∀ x ∈ w1.users, x.Email ≠ some form.Email)
    (h2 : w2.users.find? (fun x => x.Email == some form.Email) = some u)
    (hh : u.PasswordHash = some h) (hp : form.Password = some p)
    (hv : a.CompareHashAndPassword h p = false) :
    ((processForm a w1 params form).dest = "" ∧
      (processForm a w1 params form).err = some "Incorrect email or password" ∧
      (processForm a w1 params form).world.users = w1.users ∧
      (processForm a w1 params form).world.txn = some { pending := [], status := .opened }) ∧
    ((processForm a w2 params form).dest = "" ∧
      (processForm a w2 params form).err = some "Incorrect email or password" ∧
      (processForm a w2 params form).world.users = w2.users ∧
      (processForm a w2 params form).world.txn = some { pending := [], status := .opened }) := by
  constructor
  · simp [processForm, queryUserByEmail_noRows a w1 form.Email hq h1, BeginTxn, hb, hsi]
  · simp [processForm, queryUserByEmail_found a w2 form.Email u hq h2, BeginTxn, hb,
      authenticateUser, hh, hp, hv]

theorem signIn_failures_indistinguishable_witness :
    ((processForm demoApp emptyWorld signInParams
        { Email := "alice@example.com", Password := some "guess", ConfirmPassword := none }).dest
        = "" ∧
      (processForm demoApp emptyWorld signInParams
        { Email := "alice@example.com", Password := some "guess", ConfirmPassword := none }).err
        = some "Incorrect email or password" ∧
      (processForm demoApp emptyWorld signInParams
        { Email := "alice@example.com", Password := some "guess",
          ConfirmPassword := none }).world.users = emptyWorld.users ∧
      (processForm demoApp emptyWorld signInParams
        { Email := "alice@example.com", Password := some "guess",
          ConfirmPassword := none }).world.txn = some { pending := [], status := .opened }) ∧
    ((processForm demoApp aliceWorld signInParams
        { Email := "alice@example.com", Password := some "guess", ConfirmPassword := none }).dest
        = "" ∧
      (processForm demoApp aliceWorld signInParams
        { Email := "alice@example.com", Password := some "guess", ConfirmPassword := none }).err
        = some "Incorrect email or password" ∧
      (processForm demoApp aliceWorld signInParams
        { Email := "alice@example.com", Password := some "guess",
          ConfirmPassword := none }).world.users = aliceWorld.users ∧
      (processForm demoApp aliceWorld signInParams
        { Email := "alice@example.com", Password := some "guess",
          ConfirmPassword := none }).world.txn = some { pending := [], status := .opened }) :=
  signIn_failures_indistinguishable demoApp emptyWorld aliceWorld signInParams
    { Email := "alice@example.com", Password := some "guess", ConfirmPassword := none }
    alice "h:secret" "guess" rfl rfl rfl (by decide) rfl rfl rfl (by decide)

/-- C9: a sign-up for an email with no persisted row, when the lookup,
`BeginTxn`, hashing, insert, commit and signing succeed, returns the redirect
and commits exactly one new row: the persisted rows are the old ones followed
by a row of the app's tenant, with the submitted email, verification flag
false, the password hash returned by `HashPassword` for the submitted optional
password, and creation and update timestamps that are the two successive
readings of the UTC clock taken by `registerUser`. -/
theorem signUp_creates_one_row (a : app) (w : World) (params : Params) (form : formInput)
    (passwordHash : Option String) (code : String)
    (hq : a.usersQueryErr = none) (hb : a.beginErr = none)
    (hi : a.insertErr = none) (hc : a.commitErr = none)
    (hno : ∀ x ∈ w.users, x.Email ≠ some form.Email)
    (hsu : params.IsSignUp = true)
    (hh : a.HashPassword form.Password = .ok passwordHash)
    (hj : a.JWT { jti := a.NewLen UUIDLen, client_id := params.ClientID,
                  redirect_uri := params.RedirectURI, user_id := a.NewLen 40 }
            (a.now (w.tick + 2) + 30 * Second) = .ok code) :
    (processForm a w params form).err = none ∧
    (processForm a w params form).dest = redirectDest params code ∧
    (processForm a w params form).world.users =
      w.users ++ [{ ID := a.NewLen 40, TenantID := a.TenantID, Email := some form.Email,
                    EmailVerified := some false, PasswordHash := passwordHash,
                    CreatedAt := a.now w.tick, UpdatedAt := a.now (w.tick + 1) }] ∧
    (∃ t, (processForm a w params form).world.txn = some t ∧ t.status = .committed) := by
  simp [processForm, queryUserByEmail_noRows a w form.Email hq hno, BeginTxn, hb, hsu,
    registerUser, hh, Txn_Insert, hi, commitAndRedirect, Txn_Commit, hc,
    generateAuthorizationCode, hj]

theorem signUp_creates_one_row_witness :
    (processForm demoApp aliceWorld signUpParams
      { Email := "bob@example.com", Password := some "pw", ConfirmPassword := some "pw" }).err
      = none ∧
    (processForm demoApp aliceWorld signUpParams
      { Email := "bob@example.com", Password := some "pw", ConfirmPassword := some "pw" }).dest
      = redirectDest signUpParams "tok.uid" ∧
    (processForm demoApp aliceWorld signUpParams
      { Email := "bob@example.com", Password := some "pw",
        ConfirmPassword := some "pw" }).world.users =
      aliceWorld.users ++ [{ ID := demoApp.NewLen 40, TenantID := demoApp.TenantID,
                             Email := some "bob@example.com", EmailVerified := some false,
                             PasswordHash := some "h:pw",
                             CreatedAt := demoApp.now aliceWorld.tick,
                             UpdatedAt := demoApp.now (aliceWorld.tick + 1) }] ∧
    (∃ t, (processForm demoApp aliceWorld signUpParams
      { Email := "bob@example.com", Password := some "pw",
        ConfirmPassword := some "pw" }).world.txn = some t ∧ t.status = .committed) :=
  signUp_creates_one_row demoApp aliceWorld signUpParams
    { Email := "bob@example.com", Password := some "pw", ConfirmPassword := some "pw" }
    (some "h:pw") "tok.uid" rfl rfl rfl rfl (by decide) rfl rfl rfl

/-- C10: `processForm` does not read `ConfirmPassword`: two forms with the same
email and password give the same destination, error and final world, whatever
their confirmations are. -/
theorem processForm_ignores_ConfirmPassword (a : app) (w : World) (params : Params)
    (f1 f2 : formInput) (he : f1.Email = f2.Email) (hp : f1.Password = f2.Password) :
    processForm a w params f1 = processForm a w params f2 := by
  cases f1 with
  | mk e1 p1 c1 =>
    cases f2 with
    | mk e2 p2 c2 =>
      simp only at he hp
      subst he hp
      rfl

theorem processForm_ignores_ConfirmPassword_witness :
    processForm demoApp emptyWorld signUpParams
        { Email := "bob@example.com", Password := some "pw", ConfirmPassword := some "other" } =
      processForm demoApp emptyWorld signUpParams
        { Email := "bob@example.com", Password := some "pw", ConfirmPassword := some "pw" } ∧
    (processForm demoApp emptyWorld signUpParams
        { Email := "bob@example.com", Password := some "pw",
          ConfirmPassword := some "other" }).err = none ∧
    ((processForm demoApp emptyWorld signUpParams
        { Email := "bob@example.com", Password := some "pw",
          ConfirmPassword := some "other" }).world.users.map (fun u => u.Email)) =
      [some "bob@example.com"] :=
  ⟨processForm_ignores_ConfirmPassword demoApp emptyWorld signUpParams
      { Email := "bob@example.com", Password := some "pw", ConfirmPassword := some "other" }
      { Email := "bob@example.com", Password := some "pw", ConfirmPassword := some "pw" }
      rfl rfl,
   by decide, by decide⟩

/-! ## The redirect -/

theorem commitAndRedirect_ok (a : app) (w : World) (params : Params) (user : User)
    (h : (commitAndRedirect a w params user).err = none) :
    ∃ w1 code, (generateAuthorizationCode a w1 params user).1 = .ok code ∧
      (commitAndRedirect a w params user).dest = redirectDest params code := by
  unfold commitAndRedirect at h ⊢
  cases hc : Txn_Commit a w with
  | mk ce w1 =>
    cases ce with
    | some e => simp [hc] at h
    | none =>
      cases hg : generateAuthorizationCode a w1 params user with
      | mk r w2 =>
        cases r with
        | error e => simp [hc, hg] at h
        | ok code => exact ⟨w1, code, by simp [hg], by simp [hg]⟩

theorem processForm_ok (a : app) (w : World) (params : Params) (form : formInput)
    (h : (processForm a w params form).err = none) :
    ∃ user w1 code, (generateAuthorizationCode a w1 params user).1 = .ok code ∧
      (processForm a w params form).dest = redirectDest params code := by
  unfold processForm at h ⊢
  cases hq : queryUserByEmail a w form.Email with
  | failed e => simp [hq] at h
  | noRows =>
    cases hb : BeginTxn a w with
    | error e => simp [hq, hb] at h
    | ok w1 =>
      cases hs : params.IsSignUp with
      | false => simp [hq, hb, hs] at h
      | true =>
        cases hr : registerUser a w1 params form with
        | mk r w2 =>
          cases r with
          | error e => simp [hq, hb, hs, hr] at h
          | ok user =>
            simp only [hq, hb, hs, hr, if_true] at h ⊢
            obtain ⟨w3, code, h3, h4⟩ := commitAndRedirect_ok a w2 params user h
            exact ⟨user, w3, code, h3, h4⟩
  | found user =>
    cases hb : BeginTxn a w with
    | error e => simp [hq, hb] at h
    | ok w1 =>
      cases ha : authenticateUser a user form with
      | some e => simp [hq, hb, ha] at h
      | none =>
        simp only [hq, hb, ha] at h ⊢
        obtain ⟨w3, code, h3, h4⟩ := commitAndRedirect_ok a w1 params user h
        exact ⟨user, w3, code, h3, h4⟩

/-- C8 (as stated, refuted): a successful sign-in whose destination is not the
redirect URI followed by "?code=" and the code: "https://" is prepended. -/
theorem processForm_dest_counterexample :
    (processForm demoApp aliceWorld signInParams
      { Email := "alice@example.com", Password := some "secret", ConfirmPassword := none }).err
      = none ∧
    signInParams.RedirectURI = some "app.example/cb" ∧ signInParams.State = none ∧
    (generateAuthorizationCode demoApp
      { aliceWorld with txn := some { pending := [], status := .committed } }
      signInParams alice).1 = .ok "tok.u-alice" ∧
    (processForm demoApp aliceWorld signInParams
      { Email := "alice@example.com", Password := some "secret", ConfirmPassword := none }).dest
      = "https://app.example/cb?code=tok.u-alice" ∧
    (processForm demoApp aliceWorld signInParams
      { Email := "alice@example.com", Password := some "secret", ConfirmPassword := none }).dest
      ≠ "app.example/cb" ++ "?code=" ++ "tok.u-alice" :=
  ⟨by decide, rfl, rfl, rfl, by decide, by decide⟩

/-- C8 (amended): on every successful form submission with redirect URI `R`, the
destination is "https://" followed by `R`, "?code=" and the issued code,
followed by "&state=" and the state verbatim iff a state was supplied. -/
theorem processForm_dest (a : app) (w : World) (params : Params) (form : formInput)
    (R : String) (hR : params.RedirectURI = some R)
    (h : (processForm a w params form).err = none) :
    ∃ user w1 code, (generateAuthorizationCode a w1 params user).1 = .ok code ∧
      (processForm a w params form).dest =
        match params.State with
        | some state => "https://" ++ R ++ "?code=" ++ code ++ "&state=" ++ state
        | none => "https://" ++ R ++ "?code=" ++ code := by
  obtain ⟨user, w1, code, h1, h2⟩ := processForm_ok a w params form h
  refine ⟨user, w1, code, h1, ?_⟩
  rw [h2]
  simp only [redirectDest, hR, mapper_String]

theorem processForm_dest_witness :
    ∃ user w1 code, (generateAuthorizationCode demoApp w1 signUpParams user).1 = .ok code ∧
      (processForm demoApp emptyWorld signUpParams
        { Email := "bob@example.com", Password := some "pw", ConfirmPassword := none }).dest =
        "https://" ++ "app.example/cb" ++ "?code=" ++ code ++ "&state=" ++ "xyz" :=
  processForm_dest demoApp emptyWorld signUpParams
    { Email := "bob@example.com", Password := some "pw", ConfirmPassword := none }
    "app.example/cb" rfl (by decide)

/-! ## The transaction on error paths -/

theorem commitAndRedirect_err (a : app) (w : World) (params : Params) (user : User)
    (t0 : Txn) (ht : w.txn = some t0) (e : String)
    (h : (commitAndRedirect a w params user).err = some e) :
    ((commitAndRedirect a w params user).world.users = w.users ∧
      (commitAndRedirect a w params user).world.txn = some t0) ∨
    ((∃ w1, (generateAuthorizationCode a w1 params user).1 = .error e) ∧
      (commitAndRedirect a w params user).world.users = w.users ++ t0.pending ∧
      (commitAndRedirect a w params user).world.txn =
        some { pending := t0.pending, status := .committed }) := by
  unfold commitAndRedirect at h ⊢
  cases hc : a.commitErr with
  | some ce => left; simp [Txn_Commit, hc, ht]
  | none =>
    have hcm : Txn_Commit a w =
        (none, { w with users := w.users ++ t0.pending,
                        txn := some { t0 with status := .committed } }) := by
      simp [Txn_Commit, hc, ht]
    rw [hcm] at h ⊢
    cases hg : a.JWT { jti := a.NewLen UUIDLen, client_id := params.ClientID,
                       redirect_uri := params.RedirectURI, user_id := user.ID }
                (a.now w.tick + 30 * Second) with
    | ok code => simp [generateAuthorizationCode, hg] at h
    | error se =>
      right
      simp only [generateAuthorizationCode, hg, Option.some.injEq] at h
      subst h
      refine ⟨⟨w, by simp [generateAuthorizationCode, hg]⟩, ?_, ?_⟩
      · simp [generateAuthorizationCode, hg]
      · simp [generateAuthorizationCode, hg]

theorem registerUser_world (a : app) (w : World) (params : Params) (form : formInput)
    (t0 : Txn) (ht : w.txn = some t0) :
    (registerUser a w params form).2.users = w.users ∧
    ∃ t, (registerUser a w params form).2.txn = some t ∧ t.status = t0.status := by
  unfold registerUser
  cases hh : a.HashPassword form.Password with
  | error e => exact ⟨rfl, t0, ht, rfl⟩
  | ok ph =>
    cases hi : a.insertErr with
    | some ie => simp [Txn_Insert, hi, ht]
    | none => simp [Txn_Insert, hi, ht]

/-- The world left by a failing `processForm` once the transaction is begun:
either the persisted rows are untouched and the transaction is still open, or
the transaction is committed and it is the signing of the code that failed. -/
theorem processForm_err_world (a : app) (w : World) (params : Params) (form : formInput)
    (e : String) (hq : a.usersQueryErr = none) (hb : a.beginErr = none)
    (h : (processForm a w params form).err = some e) :
    ∃ t, (processForm a w params form).world.txn = some t ∧
      ((t.status = .opened ∧ (processForm a w params form).world.users = w.users) ∨
       (t.status = .committed ∧
         ∃ user w1, (generateAuthorizationCode a w1 params user).1 = .error e)) := by
  have hbt : BeginTxn a w = .ok { w with txn := some { pending := [], status := .opened } } := by
    simp [BeginTxn, hb]
  unfold processForm at h ⊢
  cases hqu : queryUserByEmail a w form.Email with
  | failed qe => simp [queryUserByEmail, hq] at hqu; split at hqu <;> simp at hqu
  | noRows =>
    simp only [hqu, hbt] at h ⊢
    cases hs : params.IsSignUp with
    | false => simp [hs]
    | true =>
      simp only [hs, if_true] at h ⊢
      obtain ⟨hru, t1, hrt, hrs⟩ := registerUser_world a
        { w with txn := some { pending := [], status := .opened } } params form
        { pending := [], status := .opened } rfl
      cases hr : registerUser a { w with txn := some { pending := [], status := .opened } }
          params form with
      | mk r w2 =>
        rw [hr] at hru hrt
        simp only at hru hrt hrs
        cases r with
        | error re => exact ⟨t1, hrt, Or.inl ⟨hrs, hru⟩⟩
        | ok user =>
          simp only [hr] at h ⊢
          rcases commitAndRedirect_err a w2 params user t1 hrt e h with ⟨h1, h2⟩ | ⟨⟨w3, h1⟩, _, h3⟩
          · exact ⟨t1, h2, Or.inl ⟨hrs, by rw [h1, hru]⟩⟩
          · exact ⟨_, h3, Or.inr ⟨rfl, user, w3, h1⟩⟩
  | found user =>
    simp only [hqu, hbt] at h ⊢
    cases ha : authenticateUser a user form with
    | some ae => simp [ha]
    | none =>
      simp only [ha] at h ⊢
      rcases commitAndRedirect_err a _ params user { pending := [], status := .opened } rfl e h
        with ⟨h1, h2⟩ | ⟨⟨w3, h1⟩, _, h3⟩
      · exact ⟨_, h2, Or.inl ⟨rfl, h1⟩⟩
      · exact ⟨_, h3, Or.inr ⟨rfl, user, w3, h1⟩⟩

theorem processForm_world_of_queryErr (a : app) (w : World) (params : Params)
    (form : formInput) (qe : String) (hq : a.usersQueryErr = some qe) :
    (processForm a w params form).world = w := by
  simp [processForm, queryUserByEmail, hq]

theorem processForm_world_of_beginErr (a : app) (w : World) (params : Params)
    (form : formInput) (be : String) (hb : a.beginErr = some be) :
    (processForm a w params form).world = w := by
  unfold processForm
  cases hqu : queryUserByEmail a w form.Email <;> simp [BeginTxn, hb]

/-- C3 (as stated, refuted): a sign-up during which the signing of the code
fails returns an error although the transaction is committed and the new row
is persisted. -/
theorem processForm_error_commit_counterexample :
    (processForm demoAppSignFails emptyWorld signUpParams
      { Email := "bob@example.com", Password := some "pw", ConfirmPassword := some "pw" }).err
      = some "signing failed" ∧
    (processForm demoAppSignFails emptyWorld signUpParams
      { Email := "bob@example.com", Password := some "pw",
        ConfirmPassword := some "pw" }).world.txn.map (fun t => t.status)
      = some TxnStatus.committed ∧
    (processForm demoAppSignFails emptyWorld signUpParams
      { Email := "bob@example.com", Password := some "pw",
        ConfirmPassword := some "pw" }).world.users.length = 1 ∧
    emptyWorld.users.length = 0 ∧
    (processForm demoAppSignFails emptyWorld signUpParams
      { Email := "bob@example.com", Password := some "pw",
        ConfirmPassword := some "pw" }).world.users ≠ emptyWorld.users := by
  decide

/-- C3 (amended): when `processForm`, started with no transaction, returns an
error, either no commit has taken place and the persisted user rows are the
same as before the call, or the failing step is the signing of the
authorization code, which runs after the commit: then the transaction is
committed. -/
theorem processForm_error_commit (a : app) (w : World) (params : Params) (form : formInput)
    (e : String) (hw : w.txn = none)
    (h : (processForm a w params form).err = some e) :
    ((processForm a w params form).world.users = w.users ∧
      ∀ t, (processForm a w params form).world.txn = some t → t.status ≠ .committed) ∨
    ((∃ user w1, (generateAuthorizationCode a w1 params user).1 = .error e) ∧
      ∃ t, (processForm a w params form).world.txn = some t ∧ t.status = .committed) := by
  cases hq : a.usersQueryErr with
  | some qe =>
    left
    rw [processForm_world_of_queryErr a w params form qe hq]
    exact ⟨rfl, fun t ht => by simp [hw] at ht⟩
  | none =>
    cases hb : a.beginErr with
    | some be =>
      left
      rw [processForm_world_of_beginErr a w params form be hb]
      exact ⟨rfl, fun t ht => by simp [hw] at ht⟩
    | none =>
      obtain ⟨t, ht, hcase⟩ := processForm_err_world a w params form e hq hb h
      rcases hcase with ⟨hs, hu⟩ | ⟨hs, hsig⟩
      · left
        refine ⟨hu, fun t1 ht1 => ?_⟩
        rw [ht] at ht1
        cases ht1
        simp [hs]
      · exact Or.inr ⟨hsig, t, ht, hs⟩

theorem processForm_error_commit_witness :
    ((processForm demoApp aliceWorld signInParams
        { Email := "alice@example.com", Password := some "guess",
          ConfirmPassword := none }).world.users = aliceWorld.users ∧
      ∀ t, (processForm demoApp aliceWorld signInParams
        { Email := "alice@example.com", Password := some "guess",
          ConfirmPassword := none }).world.txn = some t → t.status ≠ .committed) ∨
    ((∃ user w1, (generateAuthorizationCode demoApp w1 signInParams user).1 =
        .error "Incorrect email or password") ∧
      ∃ t, (processForm demoApp aliceWorld signInParams
        { Email := "alice@example.com", Password := some "guess",
          ConfirmPassword := none }).world.txn = some t ∧ t.status = .committed) :=
  processForm_error_commit demoApp aliceWorld signInParams
    { Email := "alice@example.com", Password := some "guess", ConfirmPassword := none }
    "Incorrect email or password" rfl (by decide)

/-- C4 (as stated, refuted): a sign-in for an unknown email fails after
`BeginTxn` succeeded, and the transaction is left open, not rolled back, when
the form is re-rendered. -/
theorem processForm_rollback_counterexample :
    (BeginTxn demoApp emptyWorld).toOption.isSome = true ∧
    (processForm demoApp emptyWorld signInParams
      { Email := "bob@example.com", Password := some "pw", ConfirmPassword := none }).err
      = some "Incorrect email or password" ∧
    (processForm demoApp emptyWorld signInParams
      { Email := "bob@example.com", Password := some "pw",
        ConfirmPassword := none }).world.txn = some { pending := [], status := .opened } ∧
    (Authorize demoApp emptyWorld (postRequest signInParams
      { Email := "bob@example.com", Password := some "pw", ConfirmPassword := none })).2.txn
      = some { pending := [], status := .opened } ∧
    (Authorize demoApp emptyWorld (postRequest signInParams
      { Email := "bob@example.com", Password := some "pw", ConfirmPassword := none })).2.txn
      ≠ some { pending := [], status := .rolledBack } := by
  decide

/-- C4 (amended): no error path rolls the transaction back.  When `BeginTxn`
succeeded and `processForm` returns an error, the transaction is left open or,
when the failing step is the signing of the code, committed; it is never
rolled back, and `Authorize` re-renders the form in that very world. -/
theorem processForm_never_rolls_back (a : app) (w : World) (params : Params)
    (form : formInput) (e : String)
    (hq : a.usersQueryErr = none) (hb : a.beginErr = none)
    (h : (processForm a w params form).err = some e) :
    (∃ t, (processForm a w params form).world.txn = some t ∧ t.status ≠ .rolledBack ∧
      (t.status = .opened ∨ t.status = .committed)) ∧
    (∀ c : Request, c.query = .ok params → validateOAuthParams a w params = none →
      c.Method = "POST" → c.form = .ok form →
      Authorize a w c =
        (render c params (some form) (some e), (processForm a w params form).world)) := by
  constructor
  · obtain ⟨t, ht, hcase⟩ := processForm_err_world a w params form e hq hb h
    rcases hcase with ⟨hs, _⟩ | ⟨hs, _⟩
    · exact ⟨t, ht, by simp [hs], Or.inl hs⟩
    · exact ⟨t, ht, by simp [hs], Or.inr hs⟩
  · intro c hcq hv hm hf
    simp [Authorize, hcq, hv, hm, hf, h]

theorem processForm_never_rolls_back_witness :
    (∃ t, (processForm demoApp aliceWorld signInParams
        { Email := "alice@example.com", Password := none,
          ConfirmPassword := none }).world.txn = some t ∧ t.status ≠ .rolledBack ∧
      (t.status = .opened ∨ t.status = .committed)) ∧
    Authorize demoApp aliceWorld (postRequest signInParams
        { Email := "alice@example.com", Password := none, ConfirmPassword := none }) =
      (render (postRequest signInParams
          { Email := "alice@example.com", Password := none, ConfirmPassword := none })
        signInParams
        (some { Email := "alice@example.com", Password := none, ConfirmPassword := none })
        (some "Password required"),
       (processForm demoApp aliceWorld signInParams
        { Email := "alice@example.com", Password := none,
          ConfirmPassword := none }).world) :=
  ⟨(processForm_never_rolls_back demoApp aliceWorld signInParams
      { Email := "alice@example.com", Password := none, ConfirmPassword := none }
      "Password required" rfl rfl (by decide)).1,
   (processForm_never_rolls_back demoApp aliceWorld signInParams
      { Email := "alice@example.com", Password := none, ConfirmPassword := none }
      "Password required" rfl rfl (by decide)).2 _ rfl (by decide) rfl rfl⟩

/-! ## What a failure reveals -/

theorem find?_append_cons (l1 l2 : List User) (u : User) (E : String)
    (hu : u.Email = some E) (hno : ∀ x ∈ l1, x.Email ≠ some E) :
    (l1 ++ u :: l2).find? (fun x => x.Email == some E) = some u := by
  induction l1 with
  | nil => simp [hu]
  | cons y ys ih =>
    have hy : y.Email ≠ some E := hno y (List.mem_cons_self y ys)
    have hys : ∀ x ∈ ys, x.Email ≠ some E := fun x hx => hno x (List.mem_cons_of_mem y hx)
    simp [List.find?_cons, hy, ih hys]

theorem commitAndRedirect_no_err (a : app) (w : World) (params : Params) (user : User)
    (hc : a.commitErr = none) (hj : ∀ c t, ∃ code, a.JWT c t = .ok code) :
    (commitAndRedirect a w params user).err = none := by
  unfold commitAndRedirect
  cases hcm : Txn_Commit a w with
  | mk ce w1 =>
    have hce : ce = none := by
      have := congrArg Prod.fst hcm
      simp only [Txn_Commit, hc] at this
      cases hwt : w.txn <;> simp [hwt] at this <;> exact this.symm
    subst hce
    obtain ⟨code, hcode⟩ := hj ⟨a.NewLen UUIDLen, params.ClientID, params.RedirectURI, user.ID⟩
      (a.now w1.tick + 30 * Second)
    simp [generateAuthorizationCode, hcode]

/-- C5 (as stated, refuted): two stores that differ only in the row of
alice@example.com, and a sign-in without password that fails on both with
different messages. -/
theorem signIn_leak_counterexample :
    signInParams.IsSignUp = false ∧
    aliceWorld = { emptyWorld with users := [alice] } ∧
    emptyWorld.users = [] ∧
    alice.Email = some "alice@example.com" ∧
    (processForm demoApp emptyWorld signInParams
      { Email := "alice@example.com", Password := none, ConfirmPassword := none }).err
      = some "Incorrect email or password" ∧
    (processForm demoApp aliceWorld signInParams
      { Email := "alice@example.com", Password := none, ConfirmPassword := none }).err
      = some "Password required" ∧
    (processForm demoApp emptyWorld signInParams
      { Email := "alice@example.com", Password := none, ConfirmPassword := none }).err
      ≠ (processForm demoApp aliceWorld signInParams
      { Email := "alice@example.com", Password := none, ConfirmPassword := none }).err := by
  decide

theorem signIn_same_message (a : app) (w1 w2 : World) (params : Params)
    (form : formInput) (u : User) (l1 l2 : List User) (p e1 e2 : String)
    (hw1 : w1.users = l1 ++ l2)
    (hw2 : w2 = { w1 with users := l1 ++ u :: l2 })
    (hu : u.Email = some form.Email)
    (hno : ∀ x ∈ l1 ++ l2, x.Email ≠ some form.Email)
    (hsi : params.IsSignUp = false)
    (hp : form.Password = some p)
    (hc : a.commitErr = none) (hj : ∀ c t, ∃ code, a.JWT c t = .ok code)
    (he1 : (processForm a w1 params form).err = some e1)
    (he2 : (processForm a w2 params form).err = some e2) :
    e1 = e2 := by
  have hno1 : ∀ x ∈ w1.users, x.Email ≠ some form.Email := by rw [hw1]; exact hno
  have hf2 : w2.users.find? (fun x => x.Email == some form.Email) = some u := by
    rw [hw2]
    exact find?_append_cons l1 l2 u form.Email hu
      (fun x hx => hno x (List.mem_append_left l2 hx))
  cases hq : a.usersQueryErr with
  | some qe =>
    simp [processForm, queryUserByEmail, hq] at he1 he2
    rw [← he1, ← he2]
  | none =>
    rw [processForm, queryUserByEmail_noRows a w1 form.Email hq hno1] at he1
    rw [processForm, queryUserByEmail_found a w2 form.Email u hq hf2] at he2
    cases hb : a.beginErr with
    | some be =>
      simp [BeginTxn, hb] at he1 he2
      rw [← he1, ← he2]
    | none =>
      simp [BeginTxn, hb, hsi] at he1 he2
      cases ha : authenticateUser a u form with
      | none =>
        simp only [ha] at he2
        rw [commitAndRedirect_no_err a _ params u hc hj] at he2
        simp at he2
      | some ae =>
        simp only [ha, Option.some.injEq] at he2
        have hae : ae = "Incorrect email or password" := by
          unfold authenticateUser at ha
          rw [hp] at ha
          cases hh : u.PasswordHash with
          | none => simp [hh] at ha
          | some h =>
            cases hv : a.CompareHashAndPassword h p <;> simp [hh, hv] at ha
            exact ha.symm
        rw [← he1, ← he2, hae]

/-- C5 (amended): for every sign-in submission that carries a password, and
every two stores that differ only in whether a user with the submitted email
exists, when neither the commit nor the signing of the code fails: if
`processForm` fails on both stores, it fails with the same message on both. -/
theorem signIn_same_failure_with_password (a : app) (w1 w2 : World) (params : Params)
    (form : formInput) (u : User) (l1 l2 : List User) (p : String)
    (hw1 : w1.users = l1 ++ l2)
    (hw2 : w2 = { w1 with users := l1 ++ u :: l2 })
    (hu : u.Email = some form.Email)
    (hno : ∀ x ∈ l1 ++ l2, x.Email ≠ some form.Email)
    (hsi : params.IsSignUp = false)
    (hp : form.Password = some p)
    (hc : a.commitErr = none) (hj : ∀ c t, ∃ code, a.JWT c t = .ok code)
    (he1 : (processForm a w1 params form).err ≠ none)
    (he2 : (processForm a w2 params form).err ≠ none) :
    (processForm a w1 params form).err = (processForm a w2 params form).err := by
  obtain ⟨e1, h1⟩ := Option.ne_none_iff_exists'.mp he1
  obtain ⟨e2, h2⟩ := Option.ne_none_iff_exists'.mp he2
  rw [h1, h2, signIn_same_message a w1 w2 params form u l1 l2 p e1 e2
    hw1 hw2 hu hno hsi hp hc hj h1 h2]

theorem signIn_same_failure_with_password_witness :
    (processForm demoApp emptyWorld signInParams
      { Email := "alice@example.com", Password := some "guess", ConfirmPassword := none }).err
      ≠ none ∧
    (processForm demoApp emptyWorld signInParams
      { Email := "alice@example.com", Password := some "guess", ConfirmPassword := none }).err
      = (processForm demoApp aliceWorld signInParams
      { Email := "alice@example.com", Password := some "guess", ConfirmPassword := none }).err :=
  ⟨by decide,
   signIn_same_failure_with_password demoApp emptyWorld aliceWorld signInParams
      { Email := "alice@example.com", Password := some "guess", ConfirmPassword := none }
      alice [] [] "guess"
      rfl rfl rfl (by decide) rfl rfl rfl (fun c _ => ⟨"tok." ++ c.user_id, rfl⟩)
      (by decide) (by decide)⟩

/-! ## The lookup key -/

theorem commitAndRedirect_congr (a : app) (w1 w2 : World) (params : Params) (user : User)
    (ht : w1.tick = w2.tick) (hx : w1.txn.isSome = w2.txn.isSome) :
    (commitAndRedirect a w1 params user).dest = (commitAndRedirect a w2 params user).dest ∧
    (commitAndRedirect a w1 params user).err = (commitAndRedirect a w2 params user).err := by
  unfold commitAndRedirect Txn_Commit generateAuthorizationCode
  cases hc : a.commitErr with
  | some ce => simp
  | none =>
    cases h1 : w1.txn with
    | none =>
      cases h2 : w2.txn with
      | none =>
        simp only [ht]
        cases a.JWT ⟨a.NewLen UUIDLen, params.ClientID, params.RedirectURI, user.ID⟩
          (a.now w2.tick + 30 * Second) <;> simp
      | some t2 => simp [h1, h2] at hx
    | some t1 =>
      cases h2 : w2.txn with
      | none => simp [h1, h2] at hx
      | some t2 =>
        simp only [ht]
        cases a.JWT ⟨a.NewLen UUIDLen, params.ClientID, params.RedirectURI, user.ID⟩
          (a.now w2.tick + 30 * Second) <;> simp

theorem processForm_found (a : app) (w : World) (params : Params) (form : formInput)
    (u : User) (hq : a.usersQueryErr = none) (hb : a.beginErr = none)
    (hf : w.users.find? (fun x => x.Email == some form.Email) = some u) :
    processForm a w params form =
      match authenticateUser a u form with
      | some e => { dest := "", err := some e,
                    world := { w with txn := some { pending := [], status := .opened } } }
      | none => commitAndRedirect a
          { w with txn := some { pending := [], status := .opened } } params u := by
  rw [processForm, queryUserByEmail_found a w form.Email u hq hf]
  simp only [BeginTxn, hb]

theorem commitAndRedirect_users (a : app) (w : World) (params : Params) (user : User)
    (hp : w.txn = some { pending := [], status := .opened }) :
    (commitAndRedirect a w params user).world.users = w.users := by
  unfold commitAndRedirect Txn_Commit generateAuthorizationCode
  cases hc : a.commitErr with
  | some ce => simp
  | none =>
    simp only [hp]
    cases a.JWT ⟨a.NewLen UUIDLen, params.ClientID, params.RedirectURI, user.ID⟩
      (a.now w.tick + 30 * Second) <;> simp

theorem commitAndRedirect_issue (a : app) (w : World) (params : Params) (user : User)
    (code : String) (hc : a.commitErr = none)
    (hj : a.JWT ⟨a.NewLen UUIDLen, params.ClientID, params.RedirectURI, user.ID⟩
      (a.now w.tick + 30 * Second) = .ok code) :
    (commitAndRedirect a w params user).err = none ∧
    (commitAndRedirect a w params user).dest = redirectDest params code := by
  unfold commitAndRedirect Txn_Commit generateAuthorizationCode
  cases hwt : w.txn <;> simp [hc, hj]

/-- C2 (as stated, refuted): the app's tenant is `t1` and neither store holds a
row of tenant `t1` with the submitted email, yet the outcomes differ: on the
store with a row of tenant `t2` for that email the sign-up authenticates that
row (the code is issued for its identifier) or is refused, and no row of
tenant `t1` is created. -/
theorem processForm_tenant_counterexample :
    demoApp.TenantID = "t1" ∧ mallory.TenantID = "t2" ∧ trent.TenantID = "t2" ∧
    emptyWorld.users.filter
        (fun u => u.TenantID == "t1" && u.Email == some "bob@example.com") =
      malloryWorld.users.filter
        (fun u => u.TenantID == "t1" && u.Email == some "bob@example.com") ∧
    emptyWorld.users.filter
        (fun u => u.TenantID == "t1" && u.Email == some "bob@example.com") =
      trentWorld.users.filter
        (fun u => u.TenantID == "t1" && u.Email == some "bob@example.com") ∧
    (processForm demoApp emptyWorld signUpParams
      { Email := "bob@example.com", Password := some "pw", ConfirmPassword := some "pw" }).dest
      = "https://app.example/cb?code=tok.uid&state=xyz" ∧
    (processForm demoApp emptyWorld signUpParams
      { Email := "bob@example.com", Password := some "pw",
        ConfirmPassword := some "pw" }).world.users.map (fun u => (u.ID, u.TenantID))
      = [("uid", "t1")] ∧
    (processForm demoApp malloryWorld signUpParams
      { Email := "bob@example.com", Password := some "pw", ConfirmPassword := some "pw" }).dest
      = "https://app.example/cb?code=tok.u-mallory&state=xyz" ∧
    (processForm demoApp malloryWorld signUpParams
      { Email := "bob@example.com", Password := some "pw",
        ConfirmPassword := some "pw" }).world.users = [mallory] ∧
    (processForm demoApp trentWorld signUpParams
      { Email := "bob@example.com", Password := some "pw", ConfirmPassword := some "pw" }).err
      = some "Incorrect email or password" ∧
    (processForm demoApp trentWorld signUpParams
      { Email := "bob@example.com", Password := some "pw",
        ConfirmPassword := some "pw" }).world.users = [trent] := by
  decide

/-- C2 (amended): `processForm` looks the user up by email alone, and takes the
first persisted row with the submitted email whatever its tenant.  When the
lookup and `BeginTxn` succeed and that first row is `u` (of the app's tenant or
of any other), `processForm` never registers, also on a sign-up request: the
persisted rows are unchanged; if authenticating `u` fails it returns that
error; if it succeeds and the commit and the signing succeed it returns the
redirect with the code issued for `u`; and on any other store with the same
clock whose first row with that email is `u` it returns the same destination
and error. -/
theorem processForm_lookup_by_email (a : app) (w : World) (params : Params)
    (form : formInput) (u : User) (l1 l2 : List User)
    (hq : a.usersQueryErr = none) (hb : a.beginErr = none)
    (hw : w.users = l1 ++ u :: l2)
    (hl1 : ∀ x ∈ l1, x.Email ≠ some form.Email)
    (hu : u.Email = some form.Email) :
    (processForm a w params form).world.users = w.users ∧
    (∀ e, authenticateUser a u form = some e →
      (processForm a w params form).dest = "" ∧
      (processForm a w params form).err = some e) ∧
    (∀ code, authenticateUser a u form = none → a.commitErr = none →
      a.JWT ⟨a.NewLen UUIDLen, params.ClientID, params.RedirectURI, u.ID⟩
        (a.now w.tick + 30 * Second) = .ok code →
      (processForm a w params form).err = none ∧
      (processForm a w params form).dest = redirectDest params code) ∧
    (∀ w2 : World, w2.users.find? (fun x => x.Email == some form.Email) = some u →
      w2.tick = w.tick →
      (processForm a w2 params form).dest = (processForm a w params form).dest ∧
      (processForm a w2 params form).err = (processForm a w params form).err) := by
  have hf : w.users.find? (fun x => x.Email == some form.Email) = some u := by
    rw [hw]
    exact find?_append_cons l1 l2 u form.Email hu hl1
  have hpf := processForm_found a w params form u hq hb hf
  refine ⟨?_, fun e he => ?_, fun code hau hc hj => ?_, fun w2 hf2 ht => ?_⟩
  · rw [hpf]
    cases hau : authenticateUser a u form with
    | some e => rfl
    | none => exact commitAndRedirect_users a _ params u rfl
  · rw [hpf, he]
    exact ⟨rfl, rfl⟩
  · rw [hpf, hau]
    exact commitAndRedirect_issue a _ params u code hc hj
  · rw [hpf, processForm_found a w2 params form u hq hb hf2]
    cases hau : authenticateUser a u form with
    | some e => exact ⟨rfl, rfl⟩
    | none => exact commitAndRedirect_congr a _ _ params u ht rfl

theorem processForm_lookup_by_email_witness :
    demoApp.TenantID = "t1" ∧ mallory.TenantID = "t2" ∧ signUpParams.IsSignUp = true ∧
    (processForm demoApp { emptyWorld with users := [alice, mallory, trent] } signUpParams
      { Email := "bob@example.com", Password := some "pw",
        ConfirmPassword := none }).world.users = [alice, mallory, trent] ∧
    ((processForm demoApp { emptyWorld with users := [alice, mallory, trent] } signUpParams
        { Email := "bob@example.com", Password := some "pw", ConfirmPassword := none }).err
        = none ∧
      (processForm demoApp { emptyWorld with users := [alice, mallory, trent] } signUpParams
        { Email := "bob@example.com", Password := some "pw", ConfirmPassword := none }).dest
        = redirectDest signUpParams "tok.u-mallory") ∧
    ((processForm demoApp malloryWorld signUpParams
        { Email := "bob@example.com", Password := some "pw", ConfirmPassword := none }).dest
        = (processForm demoApp { emptyWorld with users := [alice, mallory, trent] }
            signUpParams
            { Email := "bob@example.com", Password := some "pw",
              ConfirmPassword := none }).dest ∧
      (processForm demoApp malloryWorld signUpParams
        { Email := "bob@example.com", Password := some "pw", ConfirmPassword := none }).err
        = (processForm demoApp { emptyWorld with users := [alice, mallory, trent] }
            signUpParams
            { Email := "bob@example.com", Password := some "pw",
              ConfirmPassword := none }).err) :=
  ⟨rfl, rfl, rfl,
   (processForm_lookup_by_email demoApp { emptyWorld with users := [alice, mallory, trent] }
      signUpParams
      { Email := "bob@example.com", Password := some "pw", ConfirmPassword := none }
      mallory [alice] [trent] rfl rfl rfl (by decide) rfl).1,
   (processForm_lookup_by_email demoApp { emptyWorld with users := [alice, mallory, trent] }
      signUpParams
      { Email := "bob@example.com", Password := some "pw", ConfirmPassword := none }
      mallory [alice] [trent] rfl rfl rfl (by decide) rfl).2.2.1 "tok.u-mallory" rfl rfl rfl,
   (processForm_lookup_by_email demoApp { emptyWorld with users := [alice, mallory, trent] }
      signUpParams
      { Email := "bob@example.com", Password := some "pw", ConfirmPassword := none }
      mallory [alice] [trent] rfl rfl rfl (by decide) rfl).2.2.2 malloryWorld rfl rfl⟩

end Helix
